import Mathlib

/-!
Verification of the rocket nozzle optimization engine.

Shallow embedding of the Python sources:
  rocket_utils.py  : isa_atmosphere, calculate_Ma, calculate_nozzle_dimensions
  flight_sim.py    : rocket_eom (the trajectory derivative)
  main.py          : optimize_rocket_design (thrust bisection search)
  grain_design.py  : run_internal_ballistics, calculate_grain_geometry

Modelling conventions:
  - Python floats are modelled as real numbers; Python `x ** y` with a real
    exponent is modelled by Real.rpow.
  - A Python function that can raise an exception on some path is modelled
    with an Option result; `none` stands for a raised exception.
  - The scipy root finder `fsolve` is external library code; it is modelled
    as an oracle argument `fsolve` giving the number scipy would return.
  - The while loops of the sources are modelled by fuel recursion; the fuel
    bounds used are justified by the termination theorems below.
  - The thrust bisection of main.py is written over an arbitrary linear
    ordered field so that its branching behaviour can be evaluated exactly
    on rational inputs; the flight simulator behind it (scipy solve_ivp,
    an adaptive RK45 integrator) is modelled as an oracle
    `apogee : thrust -> max altitude of the simulated trajectory`.
-/

namespace Rocket

/-! ### rocket_utils.py : isa_atmosphere (lines 4-17)

Python source:
    if 0 <= h < 11000:
        T = 288.15 - 0.0065 * h
        Pa = 101325 * (T / 288.15)**5.2561
        rho = Pa / (287.05 * T)
    elif h >= 11000:
        T_11km = 216.65
        Pa_11km = 22632
        rho = Pa_11km / (287.05 * T_11km) * np.exp(-9.80665 * (h - 11000) / (287.05 * T_11km))
    else:
        rho = 1.225
        Pa = 101325
    return rho, Pa

In the branch h >= 11000 the local variable `Pa` is never assigned (only
`Pa_11km` is), so the final `return rho, Pa` raises UnboundLocalError.
That branch is therefore modelled as `none` (a raised exception). -/
noncomputable def isa_atmosphere (h : ℝ) : Option (ℝ × ℝ) :=
  if 0 ≤ h ∧ h < 11000 then
    let T := 288.15 - 0.0065 * h
    let Pa := 101325 * (T / 288.15) ^ (5.2561 : ℝ)
    let rho := Pa / (287.05 * T)
    some (rho, Pa)
  else if 11000 ≤ h then
    -- rho = 22632 / (287.05 * 216.65) * exp (-9.80665 * (h - 11000) / (287.05 * 216.65))
    -- is computed, but the function body then evaluates the never-assigned `Pa`.
    none
  else
    some (1.225, 101325)

/-! ### rocket_utils.py : calculate_Ma (lines 19-29) -/

/-- The residual function handed to fsolve (rocket_utils.py lines 21-26).
Note that for Ma <= 0 the Python code returns the constant 999 (not
999 - epsilon). -/
noncomputable def machEquation (epsilon k Ma : ℝ) : ℝ :=
  if Ma ≤ 0 then 999
  else 1.0 / Ma * ((2 / (k + 1)) * (1 + (k - 1) / 2 * Ma ^ 2)) ^ ((k + 1) / (2 * (k - 1)) : ℝ)
         - epsilon

/-- calculate_Ma returns fsolve(equation, 2.0)[0] with no convergence,
finiteness or supersonic check whatsoever: whatever number the external
solver hands back is returned as the exit Mach number. -/
noncomputable def calculate_Ma (fsolve : (ℝ → ℝ) → ℝ → ℝ) (epsilon k : ℝ) : ℝ :=
  fsolve (machEquation epsilon k) 2.0

/-! ### rocket_utils.py : calculate_nozzle_dimensions (lines 31-76) -/

/-- The dictionary returned by calculate_nozzle_dimensions; its eight keys
are "At", "Dt", "Ae", "De", "CF", "CF_ideal", "Ma_exit", "Pc_avg". -/
structure NozzleResult where
  At : ℝ
  Dt : ℝ
  Ae : ℝ
  De : ℝ
  CF : ℝ
  CF_ideal : ℝ
  Ma_exit : ℝ
  Pc_avg : ℝ

/-- Exit-to-chamber pressure relation of line 40:
Pe_ratio = (1 + (k - 1) / 2 * Ma**2) ** (-k / (k - 1)). -/
noncomputable def PeOverPc (k Ma : ℝ) : ℝ :=
  (1 + (k - 1) / 2 * Ma ^ 2) ^ (-k / (k - 1) : ℝ)

/-- Momentum part of the ideal thrust coefficient, lines 46-50:
sqrt( (2 k^2/(k-1)) * (2/(k+1))^((k+1)/(k-1)) * (1 - Pe_ratio^((k-1)/k)) ). -/
noncomputable def CF_momentum (k Ma : ℝ) : ℝ :=
  Real.sqrt ((2 * k ^ 2 / (k - 1)) * ((2 / (k + 1)) ^ ((k + 1) / (k - 1) : ℝ))
    * (1 - (PeOverPc k Ma) ^ ((k - 1) / k : ℝ)))

/-- calculate_nozzle_dimensions.  The parameter c_star is accepted (it is a
required positional parameter of the Python function) but never used in the
body.  The function is total: it performs no check of any kind on the Mach
number produced by the root finder and always returns the full dictionary. -/
noncomputable def calculate_nozzle_dimensions (fsolve : (ℝ → ℝ) → ℝ → ℝ)
    (F_req P0 P_percentage epsilon k c_star efficiency : ℝ) : NozzleResult :=
  let Ma := calculate_Ma fsolve epsilon k
  let Pe_frac := PeOverPc k Ma
  let Pa_SL : ℝ := 101325
  let Pc := P0 * P_percentage
  let CF_ideal_momentum := CF_momentum k Ma
  let CF_ideal_pressure := (Pe_frac - Pa_SL / Pc) * epsilon
  let CF_ideal := CF_ideal_momentum + CF_ideal_pressure
  let CF_real := CF_ideal * efficiency
  let At := F_req / (Pc * CF_real)
  let Dt := Real.sqrt (4 * At / Real.pi)
  let Ae := At * epsilon
  let De := Real.sqrt (4 * Ae / Real.pi)
  { At := At, Dt := Dt, Ae := Ae, De := De, CF := CF_real, CF_ideal := CF_ideal,
    Ma_exit := Ma, Pc_avg := Pc }

/-- Relations the spec asserts of the nozzle sizing result (spec 4.3 / claim C7):
chamberPressure = maxPressure * pressureRatioFraction; realized thrust
coefficient = (momentum term + (exitPressureRatio - ambientPressure /
chamberPressure) * expansionRatio) * efficiency; throatArea =
requestedThrust / (chamberPressure * realizedCF); exitArea = throatArea *
expansionRatio; diameters by circular-area inversion D = sqrt(4 A / pi). -/
noncomputable def nozzleSpecHolds (F_req P0 P_percentage epsilon k efficiency : ℝ)
    (res : NozzleResult) : Prop :=
  res.Pc_avg = P0 * P_percentage ∧
  res.CF = (CF_momentum k res.Ma_exit
      + (PeOverPc k res.Ma_exit - 101325 / (P0 * P_percentage)) * epsilon) * efficiency ∧
  res.At = F_req / ((P0 * P_percentage) * res.CF) ∧
  res.Ae = res.At * epsilon ∧
  res.Dt = Real.sqrt (4 * res.At / Real.pi) ∧
  res.De = Real.sqrt (4 * res.Ae / Real.pi)

/-! ### flight_sim.py : rocket_eom (lines 5-40) -/

/-- The params dictionary built in simulate_flight. -/
structure FlightParams where
  F_avg : ℝ
  tb : ℝ
  m0 : ℝ
  mp : ℝ
  CD_A : ℝ

/-- The equation of motion handed to solve_ivp.  It calls isa_atmosphere,
so for altitudes at or above 11000 m it propagates the UnboundLocalError
raised there (modelled as `none`). -/
noncomputable def rocket_eom (p : FlightParams) (t h v : ℝ) : Option (ℝ × ℝ) :=
  if h < 0 then some (0, 0)
  else
    match isa_atmosphere h with
    | none => none
    | some (rho, _) =>
      let mdot := p.mp / p.tb
      let m := if t ≤ p.tb then p.m0 - mdot * t else p.m0 - p.mp
      let F := if t ≤ p.tb then p.F_avg else 0
      let D := 0.5 * rho * p.CD_A * v ^ 2 * Real.sign v
      let F_net := F - D - m * 9.80665
      some (v, F_net / m)

/-! ### main.py : optimize_rocket_design (lines 11-70)

The flight simulation behind `h_max = np.max(y[0])` in the loop body
(scipy solve_ivp, external adaptive RK45 integration of rocket_eom) is
abstracted as the oracle `apogee`, mapping a tested thrust to the maximum
altitude of the simulated trajectory at that thrust. -/

/-- Loop state of the bisection: the bracket, the last tested midpoint and
its achieved apogee, the iteration counter, and whether the tolerance break
fired. -/
structure OptState where
  F_min : ℝ
  F_max : ℝ
  F_test : ℝ
  h_max : ℝ
  count : ℕ
  done : Bool

/-- One iteration of the while loop, main.py lines 31-48:
F_test = (F_min + F_max) / 2; h_max = apogee at F_test; if h_max > h_target
lower F_max else raise F_min; break if |h_max - h_target| < tol = 0.01. -/
noncomputable def optStep (apogee : ℝ → ℝ) (h_target : ℝ) (s : OptState) : OptState :=
  let F_test := (s.F_min + s.F_max) / 2
  let h_max := apogee F_test
  let s1 := if h_max > h_target then { s with F_max := F_test }
            else { s with F_min := F_test }
  { s1 with
    F_test := F_test
    h_max := h_max
    count := s.count + 1
    done := decide (|h_max - h_target| < 1 / 100) }

/-- The while loop: `while (F_max - F_min) > 1e-4 and iter_count < max_iter`.
The fuel argument counts the remaining iterations allowed by
`iter_count < max_iter` (it starts at max_iter = 100); the `done` flag
realizes the break of line 48. -/
noncomputable def optLoop (apogee : ℝ → ℝ) (h_target : ℝ) :
    ℕ → OptState → OptState
  | 0, s => s
  | fuel + 1, s =>
    if s.done ∨ ¬ (s.F_max - s.F_min > 1 / 10000) then s
    else optLoop apogee h_target fuel (optStep apogee h_target s)

/-- The search of main.py lines 23-49: initial bracket F_min, F_max = 10, 300;
initial F_req = 0 and h_max = 0; at most max_iter = 100 iterations. -/
noncomputable def thrustSearch (apogee : ℝ → ℝ) (h_target : ℝ) : OptState :=
  optLoop apogee h_target 100 { F_min := 10, F_max := 300, F_test := 0, h_max := 0,
                                count := 0, done := false }

/-- Line 50: F_req = (F_min + F_max) / 2 of the final bracket, paired with the
h_max variable left over from the last executed loop iteration. -/
noncomputable def thrustSearchResult (apogee : ℝ → ℝ) (h_target : ℝ) : ℝ × ℝ :=
  let s := thrustSearch apogee h_target
  ((s.F_min + s.F_max) / 2, s.h_max)

/-- The whole of optimize_rocket_design.  After the bisection, line 59 executes
    At, dt, Ae, de, CF = calculate_nozzle_dimensions(F_req, P0, P_percentage, epsilon, k)
This call omits the required positional argument c_star of
calculate_nozzle_dimensions (rocket_utils.py line 31), so it raises TypeError;
even with that argument supplied, unpacking the returned eight-key dictionary
into five names raises ValueError.  Line 59 therefore raises on every call and
the dictionary of line 61 is never returned: the function is modelled as
always `none` after running the search. -/
noncomputable def optimize_rocket_design (apogee : ℝ → ℝ)
    (h_target m0 mp CD_A tb k epsilon P0 P_percentage : ℝ) : Option (ℝ × ℝ) :=
  let s := thrustSearch apogee h_target
  let F_req := (s.F_min + s.F_max) / 2
  none

/-! ### grain_design.py : run_internal_ballistics (lines 6-94) -/

/-- The prop_data dictionary. -/
structure PropData where
  rho : ℝ
  a : ℝ
  n : ℝ
  c_star : ℝ

/-- Parameters of run_internal_ballistics (its epsilon local is computed from
Ae and At on line 16 but never used afterwards, so it is not modelled). -/
structure RBParams where
  d_core : ℝ
  D_grain : ℝ
  L_grain : ℝ
  At : ℝ
  prop : PropData
  nozzle_eff : ℝ
  Pa : ℝ
  k : ℝ

/-- Loop state: elapsed time, burn depth, accumulated impulse, running peak
pressure, plus an iteration counter for the termination analysis. -/
structure RBState where
  time : ℝ
  burn_depth : ℝ
  total_impulse : ℝ
  max_pressure : ℝ
  count : ℕ

/-- The timestep of grain_design.py lines 18-22. -/
def RB_dt : ℝ := 0.005

/-- One executed body of the while loop (lines 33-90), in source order:
burning area and Klemmung; raw chamber pressure Pc = (Kn rho a c_star)^(1/(1-n));
peak-pressure update with the raw Pc; clamp Pc to at least ambient
(line 49: if Pc < Pa then Pc = Pa); the two sequential pressure-factor
assignments of lines 63-67; Cf_real = 1.45 * nozzle_eff * pressure_factor;
instantaneous thrust and impulse accumulation; regression and time advance. -/
noncomputable def rbStep (p : RBParams) (s : RBState) : RBState :=
  let curr_d := p.d_core + 2 * s.burn_depth
  let curr_L := p.L_grain - 2 * s.burn_depth
  let Ab := Real.pi * curr_d * curr_L + 2 * (Real.pi / 4 * (p.D_grain ^ 2 - curr_d ^ 2))
  let Kn := Ab / p.At
  let Pc0 := (Kn * p.prop.rho * p.prop.a * p.prop.c_star) ^ (1 / (1 - p.prop.n) : ℝ)
  let maxP := if Pc0 > s.max_pressure then Pc0 else s.max_pressure
  let Pc := if Pc0 < p.Pa then p.Pa else Pc0
  let pf1 := if Pc < 10 * p.Pa then (0.95 : ℝ) else 1
  let pf := if Pc < 5 * p.Pa then (0.85 : ℝ) else pf1
  let Cf_real := 1.45 * p.nozzle_eff * pf
  let F_inst := Pc * p.At * Cf_real
  let r := p.prop.a * Pc ^ (p.prop.n : ℝ)
  { time := s.time + RB_dt,
    burn_depth := s.burn_depth + r * RB_dt,
    total_impulse := s.total_impulse + F_inst * RB_dt,
    max_pressure := maxP,
    count := s.count + 1 }

/-- The while loop of lines 25-92.  Exits: the geometric break of line 30
(before the body runs), and the time ceiling of line 92 (after the body).
The Python loop is unbounded (`while True`); the fuel makes the recursion
structural, and `rbLoop_terminates` below shows that fuel 4002 always
suffices, so `none` (fuel exhaustion) is unreachable from the initial state. -/
noncomputable def rbLoop (p : RBParams) : ℕ → RBState → Option RBState
  | 0, _ => none
  | fuel + 1, s =>
    if p.d_core + 2 * s.burn_depth ≥ p.D_grain ∨ p.L_grain - 2 * s.burn_depth ≤ 0 then
      some s
    else
      let s1 := rbStep p s
      if s1.time > 20 then some s1 else rbLoop p fuel s1

/-- run_internal_ballistics: runs the loop from time = 0, burn_depth = 0 and
returns the tuple (time, total_impulse, max_pressure, 0.0) of line 94. -/
noncomputable def run_internal_ballistics (d_core D_grain L_grain At : ℝ)
    (prop : PropData) (nozzle_eff Pa k : ℝ) : ℝ × ℝ × ℝ × ℝ :=
  let p : RBParams := { d_core := d_core, D_grain := D_grain, L_grain := L_grain,
                        At := At, prop := prop, nozzle_eff := nozzle_eff,
                        Pa := Pa, k := k }
  match rbLoop p 4002 { time := 0, burn_depth := 0, total_impulse := 0,
                        max_pressure := 0, count := 0 } with
  | some s => (s.time, s.total_impulse, s.max_pressure, 0)
  | none => (0, 0, 0, 0)

/-! ### grain_design.py : calculate_grain_geometry (lines 97-157) -/

/-- Loop state of the 20-iteration core-diameter bisection (lines 113-144). -/
structure SizingState where
  min_core : ℝ
  max_core : ℝ
  best_core : ℝ
  best_L : ℝ
  sim_tb : ℝ
  sim_imp : ℝ
  sim_P : ℝ
  done : Bool
  count : ℕ

/-- One iteration of the for loop (lines 120-144): test the bracket midpoint,
derive the length from mass conservation (with the zero guard of line 124),
run the ballistics simulation, break if the simulated burn time is within
0.01 s of the target, otherwise move the bracket; in all cases record the
tested geometry and simulation summary as the current best. -/
noncomputable def sizingStep (D_grain m_prop At tb_target prop_density c_star
    efficiency a_si n : ℝ) (s : SizingState) : SizingState :=
  let test_core := (s.min_core + s.max_core) / 2
  let area_cross := Real.pi / 4 * (D_grain ^ 2 - test_core ^ 2)
  let test_L := if area_cross > 0 then m_prop / prop_density / area_cross else 0
  let prop : PropData := { rho := prop_density, a := a_si, n := n, c_star := c_star }
  let res := run_internal_ballistics test_core D_grain test_L At prop efficiency 101325 1.137
  let real_tb := res.1
  if |real_tb - tb_target| < 0.01 then
    { s with best_core := test_core, best_L := test_L, sim_tb := real_tb,
             sim_imp := res.2.1, sim_P := res.2.2.1, done := true, count := s.count + 1 }
  else
    let s1 := if real_tb > tb_target then { s with min_core := test_core }
              else { s with max_core := test_core }
    { s1 with best_core := test_core, best_L := test_L, sim_tb := real_tb,
              sim_imp := res.2.1, sim_P := res.2.2.1, count := s.count + 1 }

/-- `for i in range(20)` with the break of line 139 modelled by the done flag. -/
noncomputable def sizingLoop (D_grain m_prop At tb_target prop_density c_star
    efficiency a_si n : ℝ) : ℕ → SizingState → SizingState
  | 0, s => s
  | fuel + 1, s =>
    if s.done then s
    else sizingLoop D_grain m_prop At tb_target prop_density c_star efficiency a_si n
      fuel (sizingStep D_grain m_prop At tb_target prop_density c_star efficiency a_si n s)

/-- The dictionary returned on line 148. -/
structure GrainResult where
  D_grain_mm : ℝ
  d_core_mm : ℝ
  L_grain_mm : ℝ
  r_mm_s : ℝ
  rho_used : ℝ
  sim_burn_time : ℝ
  sim_max_pressure_bar : ℝ
  sim_total_impulse : ℝ

/-- calculate_grain_geometry (lines 97-157).  There is no feasibility check on
D_grain = D_chamber - 2 * t_liner anywhere in the function, and no code path
builds a structured error value (no "error" key is ever produced, although the
callers in guiapp.py and plot_grain_geometry test for one).  The entry
"r_mm_s": (best_core/2 / real_tb) * 1000 divides by the simulated burn time;
when that burn time is 0.0 the Python division raises ZeroDivisionError,
modelled as `none`. -/
noncomputable def calculate_grain_geometry (D_chamber_mm t_liner_mm m_prop At
    tb_target P_avg_pa prop_density c_star efficiency a n : ℝ) : Option GrainResult :=
  let D_chamber := D_chamber_mm / 1000
  let t_liner := t_liner_mm / 1000
  let D_grain := D_chamber - 2 * t_liner
  let a_si := a / 1000
  let s0 : SizingState := { min_core := 0.005, max_core := D_grain - 0.005,
                            best_core := 0, best_L := 0, sim_tb := 0, sim_imp := 0,
                            sim_P := 0, done := false, count := 0 }
  let s := sizingLoop D_grain m_prop At tb_target prop_density c_star efficiency
             a_si n 20 s0
  if s.sim_tb = 0 then none
  else some { D_grain_mm := D_grain * 1000, d_core_mm := s.best_core * 1000,
              L_grain_mm := s.best_L * 1000,
              r_mm_s := s.best_core / 2 / s.sim_tb * 1000,
              rho_used := prop_density, sim_burn_time := s.sim_tb,
              sim_max_pressure_bar := s.sim_P / 100000,
              sim_total_impulse := s.sim_imp }

/-! Spec-side descriptions of one ballistics timestep (claim C5), written from
the words of the spec: Kn = burningArea / throatArea with the BATES area;
Pc = (Kn rho a c_star)^(1/(1-n)) clamped to at least ambient; banded realized
thrust coefficient. -/

/-- Klemmung of the current geometry, from the spec formula. -/
noncomputable def specKn (p : RBParams) (s : RBState) : ℝ :=
  (Real.pi * (p.d_core + 2 * s.burn_depth) * (p.L_grain - 2 * s.burn_depth)
    + 2 * (Real.pi / 4 * (p.D_grain ^ 2 - (p.d_core + 2 * s.burn_depth) ^ 2))) / p.At

/-- Unclamped steady-state chamber pressure from the spec formula. -/
noncomputable def specPc0 (p : RBParams) (s : RBState) : ℝ :=
  (specKn p s * p.prop.rho * p.prop.a * p.prop.c_star) ^ (1 / (1 - p.prop.n) : ℝ)

/-- Chamber pressure clamped to at least ambient. -/
noncomputable def specPc (p : RBParams) (s : RBState) : ℝ :=
  max (specPc0 p s) p.Pa

/-- The banded pressure factor: below 5x ambient 0.85, between 5x and 10x
ambient 0.95, at or above 10x ambient full efficiency 1. -/
noncomputable def specBand (p : RBParams) (s : RBState) : ℝ :=
  if specPc p s < 5 * p.Pa then 0.85
  else if specPc p s < 10 * p.Pa then 0.95 else 1

/-- Invariant of the sizing loop run on an infeasible geometry with grain
outer diameter at most -0.005 m (claim C3): the lower bracket bound stays at
its initial 0.005, every tested midpoint stays in [-0.005, 0.005] (so every
ballistics run breaks immediately and reports burn time 0), the recorded
simulated burn time stays 0 and the tolerance break never fires. -/
def degenerateInv (s : SizingState) : Prop :=
  s.min_core = 0.005 ∧ -0.015 ≤ s.max_core ∧ s.max_core ≤ 0.005 ∧
    s.sim_tb = 0 ∧ s.done = false

/-- A concrete ballistics parameter set used to instantiate the per-timestep
theorem: a 20 mm core in a 50 mm, 100 mm long KNSB grain with a 10 mm^2 throat
at sea-level ambient pressure. -/
def sampleRBParams : RBParams :=
  { d_core := 0.02, D_grain := 0.05, L_grain := 0.1, At := 0.0001,
    prop := { rho := 1700, a := 0.0001007, n := 0.319, c_star := 910 },
    nozzle_eff := 0.92, Pa := 101325, k := 1.137 }

/-- The initial ballistics state (start of the burn). -/
def sampleRBState : RBState :=
  { time := 0, burn_depth := 0, total_impulse := 0, max_pressure := 0, count := 0 }

/-- Bracket invariant of the thrust bisection: the bracket stays inside the
hard-coded initial bracket [10, 300] and keeps positive width. -/
def optBracketInv (s : OptState) : Prop :=
  10 ≤ s.F_min ∧ s.F_min < s.F_max ∧ s.F_max ≤ 300

/-- After at least one executed iteration: the recorded h_max is the apogee of
the last tested midpoint F_test, and that midpoint is one of the endpoints of
the current bracket, which has positive width. -/
def optEndpointInv (apogee : ℝ → ℝ) (s : OptState) : Prop :=
  s.h_max = apogee s.F_test ∧ (s.F_test = s.F_min ∨ s.F_test = s.F_max) ∧
    s.F_min < s.F_max

/-! ## Helper lemmas -/

/-- Evaluating the atmosphere model at sea level: the troposphere branch with
T = 288.15, so the barometric power reduces to 1 ^ 5.2561 = 1. -/
lemma isa_atmosphere_zero :
    isa_atmosphere 0 = some (101325 / (287.05 * 288.15), 101325) := by
  rw [isa_atmosphere, if_pos (by norm_num)]
  norm_num [Real.one_rpow]

/-- Any altitude at or above the 11 km boundary takes the stratosphere branch,
which raises (the local variable Pa is read but never assigned there). -/
lemma isa_atmosphere_stratosphere (h : ℝ) (hge : 11000 ≤ h) :
    isa_atmosphere h = none := by
  rw [isa_atmosphere, if_neg (by rintro ⟨-, hlt⟩; linarith), if_pos hge]

/-! ## Claim theorems -/

/-- C1: the claim states that isa_atmosphere is total and returns a
(density, pressure) pair without raising for every altitude, in particular for
every h at or above 11000 m, where it should return the isothermal stratosphere
values.  The code disagrees: in the h >= 11000 branch the local variable Pa is
never assigned, so `return rho, Pa` raises UnboundLocalError; the function
raises instead of returning a pair at the 11 km boundary and above. -/
theorem isa_atmosphere_raises_at_11km :
    isa_atmosphere 11000 = none ∧ isa_atmosphere 25000 = none :=
  ⟨isa_atmosphere_stratosphere 11000 (by norm_num),
   isa_atmosphere_stratosphere 25000 (by norm_num)⟩

/-- C9: for every altitude below zero the atmosphere model returns exactly the
sea-level state (density 1.225, pressure 101325). -/
theorem isa_atmosphere_below_ground (h : ℝ) (hneg : h < 0) :
    isa_atmosphere h = some (1.225, 101325) := by
  rw [isa_atmosphere, if_neg (by rintro ⟨h0, -⟩; linarith), if_neg (by linarith)]

/-- Witness for C9 at the concrete altitude h = -1. -/
theorem isa_atmosphere_below_ground_witness :
    (-1 : ℝ) < 0 ∧ isa_atmosphere (-1) = some (1.225, 101325) :=
  ⟨by norm_num, isa_atmosphere_below_ground (-1) (by norm_num)⟩

/-- C6: the claim describes rocket_eom as total: (0,0) below ground and
(v, (F - D - m g0)/m) otherwise.  The code satisfies the below-ground clamp and
the claimed formula in the troposphere (shown here at h = 0, v = 0, t = 0,
where the drag term is 0.5 * rho * CD_A * 0^2 * sign 0 = 0, m = m0 and
F = F_avg), but for h >= 11000 it propagates the UnboundLocalError raised
inside isa_atmosphere instead of returning the claimed derivative pair. -/
theorem rocket_eom_eval :
    rocket_eom ⟨100, 3.05, 3.75, 0.4, 0.00264⟩ 0 11000 0 = none ∧
    rocket_eom ⟨100, 3.05, 3.75, 0.4, 0.00264⟩ 0 (-1) 5 = some (0, 0) ∧
    rocket_eom ⟨100, 3.05, 3.75, 0.4, 0.00264⟩ 0 0 0 =
      some (0, (100 - 3.75 * 9.80665) / 3.75) := by
  refine ⟨?_, ?_, ?_⟩
  · rw [rocket_eom, if_neg (by norm_num), isa_atmosphere_stratosphere 11000 (by norm_num)]
  · rw [rocket_eom, if_pos (by norm_num)]
  · rw [rocket_eom, if_neg (by norm_num), isa_atmosphere_zero]
    norm_num [Real.sign_zero]

/-- Each loop iteration increments iter_count exactly once. -/
lemma optStep_count (apogee : ℝ → ℝ) (h_target : ℝ) (s : OptState) :
    (optStep apogee h_target s).count = s.count + 1 := rfl

/-- The last tested thrust recorded by an iteration is the bracket midpoint. -/
lemma optStep_F_test (apogee : ℝ → ℝ) (h_target : ℝ) (s : OptState) :
    (optStep apogee h_target s).F_test = (s.F_min + s.F_max) / 2 := rfl

/-- The achieved apogee recorded by an iteration is that of the tested
midpoint. -/
lemma optStep_h_max (apogee : ℝ → ℝ) (h_target : ℝ) (s : OptState) :
    (optStep apogee h_target s).h_max = apogee ((s.F_min + s.F_max) / 2) := rfl

/-- Bracket update when the achieved apogee exceeds the target: the upper
bound is lowered to the midpoint. -/
lemma optStep_proj_pos (apogee : ℝ → ℝ) (h_target : ℝ) (s : OptState)
    (hc : apogee ((s.F_min + s.F_max) / 2) > h_target) :
    (optStep apogee h_target s).F_min = s.F_min ∧
      (optStep apogee h_target s).F_max = (s.F_min + s.F_max) / 2 := by
  constructor <;> simp [optStep, hc]

/-- Bracket update otherwise: the lower bound is raised to the midpoint. -/
lemma optStep_proj_neg (apogee : ℝ → ℝ) (h_target : ℝ) (s : OptState)
    (hc : ¬ apogee ((s.F_min + s.F_max) / 2) > h_target) :
    (optStep apogee h_target s).F_min = (s.F_min + s.F_max) / 2 ∧
      (optStep apogee h_target s).F_max = s.F_max := by
  constructor <;> simp [optStep, hc]

/-- The bisection update keeps the bracket inside [10, 300] with positive
width: the tested midpoint replaces one endpoint and lies strictly between
both. -/
lemma optStep_bracket (apogee : ℝ → ℝ) (h_target : ℝ) (s : OptState)
    (h : optBracketInv s) : optBracketInv (optStep apogee h_target s) := by
  obtain ⟨h1, h2, h3⟩ := h
  by_cases hc : apogee ((s.F_min + s.F_max) / 2) > h_target
  · obtain ⟨e1, e2⟩ := optStep_proj_pos apogee h_target s hc
    exact ⟨by rw [e1]; linarith, by rw [e1, e2]; linarith, by rw [e2]; linarith⟩
  · obtain ⟨e1, e2⟩ := optStep_proj_neg apogee h_target s hc
    exact ⟨by rw [e1]; linarith, by rw [e1, e2]; linarith, by rw [e2]; linarith⟩

/-- After an executed iteration the recorded h_max is the apogee of the tested
midpoint, which is now an endpoint of the (still positive-width) bracket. -/
lemma optStep_endpoint (apogee : ℝ → ℝ) (h_target : ℝ) (s : OptState)
    (h2 : s.F_min < s.F_max) : optEndpointInv apogee (optStep apogee h_target s) := by
  refine ⟨by rw [optStep_h_max, optStep_F_test], ?_, ?_⟩
  · by_cases hc : apogee ((s.F_min + s.F_max) / 2) > h_target
    · exact Or.inr (by rw [optStep_F_test, (optStep_proj_pos apogee h_target s hc).2])
    · exact Or.inl (by rw [optStep_F_test, (optStep_proj_neg apogee h_target s hc).1])
  · by_cases hc : apogee ((s.F_min + s.F_max) / 2) > h_target
    · obtain ⟨e1, e2⟩ := optStep_proj_pos apogee h_target s hc
      rw [e1, e2]; linarith
    · obtain ⟨e1, e2⟩ := optStep_proj_neg apogee h_target s hc
      rw [e1, e2]; linarith

/-- The loop can only add as many iterations as it has fuel. -/
lemma optLoop_count (apogee : ℝ → ℝ) (h_target : ℝ) :
    ∀ (fuel : ℕ) (s : OptState),
      (optLoop apogee h_target fuel s).count ≤ s.count + fuel := by
  intro fuel
  induction fuel with
  | zero => intro s; rw [optLoop]; omega
  | succ n ih =>
    intro s
    rw [optLoop]
    by_cases hc : (s.done = true) ∨ ¬ (s.F_max - s.F_min > 1 / 10000)
    · rw [if_pos hc]; omega
    · rw [if_neg hc]
      calc (optLoop apogee h_target n (optStep apogee h_target s)).count
          ≤ (optStep apogee h_target s).count + n := ih _
        _ = s.count + 1 + n := by rw [optStep_count]
        _ ≤ s.count + (n + 1) := by omega

/-- The loop preserves the bracket invariant. -/
lemma optLoop_bracket (apogee : ℝ → ℝ) (h_target : ℝ) :
    ∀ (fuel : ℕ) (s : OptState), optBracketInv s →
      optBracketInv (optLoop apogee h_target fuel s) := by
  intro fuel
  induction fuel with
  | zero => intro s h; rwa [optLoop]
  | succ n ih =>
    intro s h
    rw [optLoop]
    by_cases hc : (s.done = true) ∨ ¬ (s.F_max - s.F_min > 1 / 10000)
    · rwa [if_pos hc]
    · rw [if_neg hc]
      exact ih _ (optStep_bracket apogee h_target s h)

/-- The loop preserves the endpoint invariant. -/
lemma optLoop_endpoint (apogee : ℝ → ℝ) (h_target : ℝ) :
    ∀ (fuel : ℕ) (s : OptState), optEndpointInv apogee s →
      optEndpointInv apogee (optLoop apogee h_target fuel s) := by
  intro fuel
  induction fuel with
  | zero => intro s h; rwa [optLoop]
  | succ n ih =>
    intro s h
    rw [optLoop]
    by_cases hc : (s.done = true) ∨ ¬ (s.F_max - s.F_min > 1 / 10000)
    · rwa [if_pos hc]
    · rw [if_neg hc]
      exact ih _ (optStep_endpoint apogee h_target s h.2.2)

/-- The search always executes its first iteration: the initial bracket has
width 290 > 1e-4 and the break flag starts false. -/
lemma thrustSearch_unfold (apogee : ℝ → ℝ) (h_target : ℝ) :
    thrustSearch apogee h_target =
      optLoop apogee h_target 99
        (optStep apogee h_target
          { F_min := 10, F_max := 300, F_test := 0, h_max := 0,
            count := 0, done := false }) := by
  rw [thrustSearch, show (100 : ℕ) = 99 + 1 from rfl, optLoop, if_neg (by norm_num)]

/-- The final state of the search satisfies both invariants. -/
lemma thrustSearch_inv (apogee : ℝ → ℝ) (h_target : ℝ) :
    optBracketInv (thrustSearch apogee h_target) ∧
      optEndpointInv apogee (thrustSearch apogee h_target) := by
  constructor
  · exact optLoop_bracket apogee h_target 100 _ ⟨by norm_num, by norm_num, by norm_num⟩
  · rw [thrustSearch_unfold]
    exact optLoop_endpoint apogee h_target 99 _
      (optStep_endpoint apogee h_target _ (by norm_num))

/-- C2: the claim describes the bisection update rule (which the code does
implement, see the lemmas optStep_proj_pos and optStep_proj_neg) and states
that the optimizer outputs the required thrust paired with the apogee of the
trajectory simulated at that thrust, never treating exhaustion as fatal.  The
code disagrees twice.  First, line 59 of main.py calls
calculate_nozzle_dimensions without its required c_star argument and unpacks
the eight-key result dictionary into five names, so optimize_rocket_design
raises on every input and never returns any output pair (first conjunct).
Second, even the pair the search builds on line 50 mispairs its components:
h_max is the apogee of the last tested midpoint, an endpoint of the final
bracket, while F_req is the midpoint of that final bracket, a thrust that was
never simulated; with the strictly monotone apogee map x |-> x and target
295 m, the reported h_max differs from the apogee at the reported F_req
(second conjunct). -/
theorem optimize_rocket_design_raises :
    (∀ (apogee : ℝ → ℝ) (h_target m0 mp CD_A tb k epsilon P0 P_percentage : ℝ),
        optimize_rocket_design apogee h_target m0 mp CD_A tb k epsilon P0 P_percentage
          = none) ∧
    (thrustSearchResult (fun x : ℝ => x) 295).2 ≠
      (fun x : ℝ => x) ((thrustSearchResult (fun x : ℝ => x) 295).1) := by
  constructor
  · intro apogee h_target m0 mp CD_A tb k epsilon P0 P_percentage
    rfl
  · obtain ⟨-, hend⟩ := thrustSearch_inv (fun x : ℝ => x) 295
    obtain ⟨hh, hep, hlt⟩ := hend
    have hr : (thrustSearchResult (fun x : ℝ => x) 295).1 =
        ((thrustSearch (fun x : ℝ => x) 295).F_min
          + (thrustSearch (fun x : ℝ => x) 295).F_max) / 2 := rfl
    show (thrustSearch (fun x : ℝ => x) 295).h_max ≠ _
    rw [hh]
    rcases hep with he | he <;> rw [he] <;> intro hcontra <;> rw [hr] at hcontra <;>
      simp only [] at hcontra <;> linarith

/-- C10: for every input configuration (any apogee oracle and any target),
the thrust produced by the bisection search of main.py lines 23-50 is the
midpoint of the final bracket and lies strictly between the hard-coded
bracket bounds 10 N and 300 N. -/
theorem thrust_result_in_bracket (apogee : ℝ → ℝ) (h_target : ℝ) :
    10 < (thrustSearchResult apogee h_target).1 ∧
    (thrustSearchResult apogee h_target).1 < 300 ∧
    (thrustSearchResult apogee h_target).1 =
      ((thrustSearch apogee h_target).F_min + (thrustSearch apogee h_target).F_max) / 2 := by
  obtain ⟨⟨h1, h2, h3⟩, -⟩ := thrustSearch_inv apogee h_target
  exact ⟨by show 10 < (_ + _) / 2; linarith, by show (_ + _) / 2 < 300; linarith, rfl⟩

/-- C7: for every input (and whatever exit Mach the root-finding oracle
produces), the nozzle sizing output satisfies the relations claimed by the
spec: Pc_avg = maxPressure * pressureRatioFraction; realized CF = (momentum
term + (exit pressure fraction - ambient / chamber) * expansion) * efficiency;
At = thrust / (Pc * CF); Ae = At * expansion; both diameters by circular-area
inversion. -/
theorem nozzle_dimensions_satisfy_spec (fsolve : (ℝ → ℝ) → ℝ → ℝ)
    (F_req P0 P_percentage epsilon k c_star efficiency : ℝ) :
    nozzleSpecHolds F_req P0 P_percentage epsilon k efficiency
      (calculate_nozzle_dimensions fsolve F_req P0 P_percentage epsilon k c_star efficiency) :=
  ⟨rfl, rfl, rfl, rfl, rfl, rfl⟩

/-- C4: the claim states that when the root-finder fails to converge to a
supersonic root the nozzle computation signals an error and produces no
geometry.  The code has no such path: calculate_Ma returns fsolve's output
unchecked and calculate_nozzle_dimensions unconditionally builds the full
geometry dictionary from it.  Concretely, for expansion ratio 1/2 (for which
the area-Mach relation has no supersonic solution at all) and an oracle
returning the non-root, subsonic value 1/2, the code still returns a geometry
whose exit Mach is 1/2: not supersonic, and not a root of the equation the
solver was asked to solve (the residual there is 3/4, not 0). -/
theorem nozzle_accepts_failed_root :
    (calculate_nozzle_dimensions (fun _ _ => 1 / 2) 100 3000000 0.615 (1 / 2) 3 910
        0.92).Ma_exit = 1 / 2 ∧
    ¬ (1 < (calculate_nozzle_dimensions (fun _ _ => 1 / 2) 100 3000000 0.615 (1 / 2) 3 910
        0.92).Ma_exit) ∧
    machEquation (1 / 2) 3 ((calculate_nozzle_dimensions (fun _ _ => 1 / 2) 100 3000000 0.615
        (1 / 2) 3 910 0.92).Ma_exit) ≠ 0 := by
  have hMa : (calculate_nozzle_dimensions (fun _ _ => 1 / 2) 100 3000000 0.615 (1 / 2) 3 910
      0.92).Ma_exit = 1 / 2 := rfl
  refine ⟨hMa, by rw [hMa]; norm_num, ?_⟩
  rw [hMa, machEquation, if_neg (by norm_num),
    show ((3 : ℝ) + 1) / (2 * (3 - 1)) = 1 by norm_num, Real.rpow_one]
  norm_num

/-- The clamp written `if x < y then y else x` in the code is the maximum. -/
lemma ite_lt_max (x y : ℝ) : (if x < y then y else x) = max x y := by
  rcases lt_or_ge x y with h | h
  · rw [if_pos h, max_eq_right h.le]
  · rw [if_neg (not_lt.mpr h), max_eq_left h]

/-- The peak tracker written `if x > m then x else m` in the code is the
maximum. -/
lemma ite_gt_max (m x : ℝ) : (if x > m then x else m) = max m x := by
  rcases le_or_lt x m with h | h
  · rw [if_neg (not_lt.mpr h), max_eq_left h]
  · rw [if_pos h, max_eq_right h.le]

/-- At or above ten times ambient pressure the banded factor is 1 (full
efficiency). -/
lemma specBand_high (p : RBParams) (s : RBState) (hPa : 0 < p.Pa)
    (h : 10 * p.Pa ≤ specPc p s) : specBand p s = 1 := by
  rw [specBand, if_neg (by push_neg; nlinarith), if_neg (not_lt.mpr h)]

/-- Between five and ten times ambient the banded factor is the first stepped
reduction 0.95. -/
lemma specBand_mid (p : RBParams) (s : RBState) (h5 : 5 * p.Pa ≤ specPc p s)
    (h10 : specPc p s < 10 * p.Pa) : specBand p s = 0.95 := by
  rw [specBand, if_neg (not_lt.mpr h5), if_pos h10]

/-- Below five times ambient the banded factor is the further reduction 0.85. -/
lemma specBand_low (p : RBParams) (s : RBState) (h : specPc p s < 5 * p.Pa) :
    specBand p s = 0.85 := by
  rw [specBand, if_pos h]

/-- rbStep written with the clamp and the peak tracker still as the literal
conditionals of the code, but with the chamber-pressure expression named. -/
lemma rbStep_code_form (p : RBParams) (s : RBState) :
    rbStep p s =
      { time := s.time + RB_dt
        burn_depth := s.burn_depth
          + p.prop.a * (if specPc0 p s < p.Pa then p.Pa else specPc0 p s) ^ (p.prop.n : ℝ)
            * RB_dt
        total_impulse := s.total_impulse
          + (if specPc0 p s < p.Pa then p.Pa else specPc0 p s) * p.At
            * (1.45 * p.nozzle_eff
              * (if (if specPc0 p s < p.Pa then p.Pa else specPc0 p s) < 5 * p.Pa then 0.85
                 else if (if specPc0 p s < p.Pa then p.Pa else specPc0 p s) < 10 * p.Pa
                      then 0.95 else 1)) * RB_dt
        max_pressure := if specPc0 p s > s.max_pressure then specPc0 p s else s.max_pressure
        count := s.count + 1 } := rfl

/-- C5: every executed timestep of the internal-ballistics loop advances the
state exactly as the spec describes: with Kn = burningArea / throatArea and
raw pressure Pc0 = (Kn rho a c_star)^(1/(1-n)), the pressure actually used is
the clamp max Pc0 ambient; thrust is Pc * At * (1.45 * efficiency * banded
factor) with the banded factor 0.85 below 5x ambient, 0.95 between 5x and 10x
ambient, and 1 at or above 10x ambient (see specBand and the specBand lemmas);
impulse accumulates thrust * dt; burn depth advances by a * Pc^n * dt; time
advances by dt = 0.005; the running peak records the unclamped pressure.  The
second conjunct ties the step to the simulation loop: each loop round first
checks the geometric exit condition, then performs exactly this step, then
applies the 20 s ceiling. -/
theorem ballistics_step_follows_spec (p : RBParams) (s : RBState) (fuel : ℕ) :
    rbStep p s =
      { time := s.time + RB_dt
        burn_depth := s.burn_depth + p.prop.a * specPc p s ^ (p.prop.n : ℝ) * RB_dt
        total_impulse := s.total_impulse
          + specPc p s * p.At * (1.45 * p.nozzle_eff * specBand p s) * RB_dt
        max_pressure := max s.max_pressure (specPc0 p s)
        count := s.count + 1 } ∧
    rbLoop p (fuel + 1) s =
      (if p.d_core + 2 * s.burn_depth ≥ p.D_grain ∨ p.L_grain - 2 * s.burn_depth ≤ 0 then
        some s
       else if (rbStep p s).time > 20 then some (rbStep p s)
       else rbLoop p fuel (rbStep p s)) := by
  constructor
  · rw [rbStep_code_form, ite_lt_max (specPc0 p s) p.Pa, ite_gt_max s.max_pressure (specPc0 p s)]
    rfl
  · rfl

/-- Each executed ballistics iteration advances time by exactly dt. -/
lemma rbStep_time (p : RBParams) (s : RBState) : (rbStep p s).time = s.time + RB_dt := rfl

/-- Each executed ballistics iteration increments the counter by one. -/
lemma rbStep_count (p : RBParams) (s : RBState) : (rbStep p s).count = s.count + 1 := rfl

/-- If the entry time is at most 20 s and the fuel covers the remaining time
to the 20 s ceiling, the loop returns (never exhausts its fuel) and the
returned elapsed time is at most 20 s + dt. -/
lemma rbLoop_terminates (p : RBParams) :
    ∀ (fuel : ℕ) (s : RBState), s.time ≤ 20 → 20 < s.time + fuel * RB_dt →
      ∃ r, rbLoop p fuel s = some r ∧ r.time ≤ 20 + RB_dt := by
  intro fuel
  induction fuel with
  | zero =>
    intro s h1 h2
    exact absurd h2 (by push_cast; linarith)
  | succ n ih =>
    intro s h1 h2
    rw [rbLoop]
    by_cases hg : p.d_core + 2 * s.burn_depth ≥ p.D_grain ∨ p.L_grain - 2 * s.burn_depth ≤ 0
    · refine ⟨s, by rw [if_pos hg], ?_⟩
      have : (0 : ℝ) < RB_dt := by rw [RB_dt]; norm_num
      linarith
    · rw [if_neg hg]
      by_cases ht : (rbStep p s).time > 20
      · refine ⟨rbStep p s, by rw [if_pos ht], ?_⟩
        rw [rbStep_time]; linarith
      · rw [if_neg ht]
        refine ih (rbStep p s) (by rw [rbStep_time] at ht ⊢; linarith) ?_
        rw [rbStep_time]
        push_cast at h2 ⊢
        linarith

/-- Along the loop, elapsed time is always the iteration count times dt. -/
lemma rbLoop_time_count (p : RBParams) :
    ∀ (fuel : ℕ) (s : RBState) (r : RBState), s.time = s.count * RB_dt →
      rbLoop p fuel s = some r → r.time = r.count * RB_dt := by
  intro fuel
  induction fuel with
  | zero => intro s r _ hr; exact absurd hr (by rw [rbLoop]; simp)
  | succ n ih =>
    intro s r hinv hr
    rw [rbLoop] at hr
    by_cases hg : p.d_core + 2 * s.burn_depth ≥ p.D_grain ∨ p.L_grain - 2 * s.burn_depth ≤ 0
    · rw [if_pos hg] at hr
      cases hr
      exact hinv
    · rw [if_neg hg] at hr
      have hstep : (rbStep p s).time = (rbStep p s).count * RB_dt := by
        rw [rbStep_time, rbStep_count, hinv]
        push_cast
        ring
      by_cases ht : (rbStep p s).time > 20
      · rw [if_pos ht] at hr
        cases hr
        exact hstep
      · rw [if_neg ht] at hr
        exact ih (rbStep p s) r hstep hr

/-- Each sizing iteration increments its counter by exactly one, whether or
not the tolerance break fires. -/
lemma sizingStep_count (D_grain m_prop At tb_target prop_density c_star
    efficiency a_si n : ℝ) (s : SizingState) :
    (sizingStep D_grain m_prop At tb_target prop_density c_star efficiency a_si n s).count
      = s.count + 1 := by
  simp only [sizingStep]
  split <;> split <;> rfl

/-- The sizing loop runs at most as many iterations as it has fuel. -/
lemma sizingLoop_count (D_grain m_prop At tb_target prop_density c_star
    efficiency a_si n : ℝ) :
    ∀ (fuel : ℕ) (s : SizingState),
      (sizingLoop D_grain m_prop At tb_target prop_density c_star efficiency a_si n
        fuel s).count ≤ s.count + fuel := by
  intro fuel
  induction fuel with
  | zero => intro s; rw [sizingLoop]; omega
  | succ m ih =>
    intro s
    rw [sizingLoop]
    by_cases hd : s.done = true
    · rw [if_pos hd]; omega
    · rw [if_neg hd]
      calc (sizingLoop D_grain m_prop At tb_target prop_density c_star efficiency a_si n m
              (sizingStep D_grain m_prop At tb_target prop_density c_star efficiency a_si n
                s)).count
          ≤ (sizingStep D_grain m_prop At tb_target prop_density c_star efficiency a_si n
              s).count + m := ih _
        _ = s.count + 1 + m := by rw [sizingStep_count]
        _ ≤ s.count + (m + 1) := by omega

/-- C8: every core loop respects its explicit ceiling.  (1) The thrust
bisection executes at most its cap of 100 iterations.  (2) The grain-sizing
bisection executes at most 20 iterations.  (3) From the initial state, the
internal-ballistics while loop (time advancing by dt = 0.005 each round,
stopping on core reaching the outer diameter, length reaching 0, or time
exceeding the 20 s ceiling) returns within fuel 4002, having executed at most
4001 = ceil(20 / 0.005) + 1 iterations, and (4) the burn time it reports never
exceeds 20 s + dt. -/
theorem core_loops_bounded :
    (∀ (apogee : ℝ → ℝ) (h_target : ℝ), (thrustSearch apogee h_target).count ≤ 100) ∧
    (∀ (D_grain m_prop At tb_target prop_density c_star efficiency a_si n : ℝ)
        (s : SizingState),
      (sizingLoop D_grain m_prop At tb_target prop_density c_star efficiency a_si n
        20 s).count ≤ s.count + 20) ∧
    (∀ p : RBParams, ∃ r,
      rbLoop p 4002 { time := 0, burn_depth := 0, total_impulse := 0, max_pressure := 0,
                      count := 0 } = some r ∧ r.time ≤ 20 + RB_dt ∧ r.count ≤ 4001) ∧
    (∀ (d_core D_grain L_grain At : ℝ) (prop : PropData) (nozzle_eff Pa k : ℝ),
      (run_internal_ballistics d_core D_grain L_grain At prop nozzle_eff Pa k).1
        ≤ 20 + RB_dt) := by
  have hrb : ∀ p : RBParams, ∃ r,
      rbLoop p 4002 { time := 0, burn_depth := 0, total_impulse := 0, max_pressure := 0,
                      count := 0 } = some r ∧ r.time ≤ 20 + RB_dt ∧ r.count ≤ 4001 := by
    intro p
    obtain ⟨r, hr, htime⟩ := rbLoop_terminates p 4002
      { time := 0, burn_depth := 0, total_impulse := 0, max_pressure := 0, count := 0 }
      (by norm_num) (by rw [RB_dt]; push_cast; norm_num)
    refine ⟨r, hr, htime, ?_⟩
    have hcnt : r.time = r.count * RB_dt := by
      refine rbLoop_time_count p 4002 _ r ?_ hr
      show (0 : ℝ) = (0 : ℕ) * RB_dt
      push_cast
      ring
    have hle : (r.count : ℝ) * RB_dt ≤ 20 + RB_dt := by rw [← hcnt]; exact htime
    rw [RB_dt] at hle
    have : (r.count : ℝ) ≤ 4001 := by linarith
    exact_mod_cast this
  refine ⟨?_, ?_, hrb, ?_⟩
  · intro apogee h_target
    exact le_trans (optLoop_count apogee h_target 100 _) (by norm_num)
  · intro D_grain m_prop At tb_target prop_density c_star efficiency a_si n s
    exact sizingLoop_count D_grain m_prop At tb_target prop_density c_star efficiency
      a_si n 20 s
  · intro d_core D_grain L_grain At prop nozzle_eff Pa k
    obtain ⟨r, hr, htime, -⟩ := hrb
      { d_core := d_core, D_grain := D_grain, L_grain := L_grain, At := At, prop := prop,
        nozzle_eff := nozzle_eff, Pa := Pa, k := k }
    rw [run_internal_ballistics]
    rw [hr]
    exact htime

/-- When the tested core diameter already reaches the grain outer diameter,
the ballistics loop breaks before its first body and reports burn time 0,
impulse 0 and peak pressure 0.  In particular this happens for every tested
core when the grain outer diameter is non-positive. -/
lemma run_rb_immediate (d_core D_grain L_grain At : ℝ) (prop : PropData)
    (nozzle_eff Pa k : ℝ) (h : D_grain ≤ d_core) :
    run_internal_ballistics d_core D_grain L_grain At prop nozzle_eff Pa k
      = (0, 0, 0, 0) := by
  simp only [run_internal_ballistics]
  rw [show (4002 : ℕ) = 4001 + 1 from rfl, rbLoop, if_pos]
  left
  simpa using h

/-- One sizing iteration on an infeasible geometry (outer diameter at most
-0.005) with a target burn time of at least 0.01 s preserves the degenerate
invariant: the tested midpoint is at least -0.005, so the simulation reports
burn time 0, the tolerance break does not fire, 0 is not above the target,
and the upper bracket bound moves down to the midpoint. -/
lemma sizingStep_degenerate (D_grain m_prop At tb_target prop_density c_star
    efficiency a_si n : ℝ) (s : SizingState) (hDg : D_grain ≤ -0.005)
    (htb : 0.01 ≤ tb_target) (hs : degenerateInv s) :
    degenerateInv
      (sizingStep D_grain m_prop At tb_target prop_density c_star efficiency a_si n s) := by
  obtain ⟨h1, h2, h3, h4, h5⟩ := hs
  have htc1 : -0.005 ≤ (s.min_core + s.max_core) / 2 := by rw [h1]; linarith
  have htc2 : (s.min_core + s.max_core) / 2 ≤ 0.005 := by rw [h1]; linarith
  have hrb := run_rb_immediate ((s.min_core + s.max_core) / 2) D_grain
      (if Real.pi / 4 * (D_grain ^ 2 - ((s.min_core + s.max_core) / 2) ^ 2) > 0 then
        m_prop / prop_density / (Real.pi / 4 * (D_grain ^ 2 - ((s.min_core + s.max_core) / 2) ^ 2))
       else 0) At
      { rho := prop_density, a := a_si, n := n, c_star := c_star } efficiency 101325 1.137
      (by linarith)
  have hbreak : ¬ (|(0 : ℝ) - tb_target| < 0.01) := by
    rw [zero_sub, abs_neg, abs_of_nonneg (by linarith : (0 : ℝ) ≤ tb_target)]
    linarith
  have hdir : ¬ ((0 : ℝ) > tb_target) := by linarith
  simp only [sizingStep, hrb]
  rw [if_neg (by simpa using hbreak), if_neg (by simpa using hdir)]
  refine ⟨h1, by dsimp only; linarith, by dsimp only; linarith, rfl, h5⟩

/-- The sizing loop preserves the degenerate invariant for any fuel. -/
lemma sizingLoop_degenerate (D_grain m_prop At tb_target prop_density c_star
    efficiency a_si n : ℝ) (hDg : D_grain ≤ -0.005) (htb : 0.01 ≤ tb_target) :
    ∀ (fuel : ℕ) (s : SizingState), degenerateInv s →
      degenerateInv
        (sizingLoop D_grain m_prop At tb_target prop_density c_star efficiency a_si n
          fuel s) := by
  intro fuel
  induction fuel with
  | zero => intro s hs; rwa [sizingLoop]
  | succ m ih =>
    intro s hs
    rw [sizingLoop, if_neg (by rw [hs.2.2.2.2]; exact Bool.false_ne_true)]
    exact ih _ (sizingStep_degenerate D_grain m_prop At tb_target prop_density c_star
      efficiency a_si n s hDg htb hs)

/-- C3: the claim states that a grain configuration whose liner thickness is
at least half the chamber diameter (grain outer diameter <= 0) yields a
structured infeasible-geometry error and never a numeric result.  The code
has no feasibility check at all and no code path that builds an error value
(its callers test for an "error" key that is never produced).  On the
concrete infeasible input chamber 40 mm with 25 mm liner (outer diameter
-10 mm), every tested core makes the ballistics loop exit immediately with
burn time 0, all twenty bisection iterations keep a zero burn time, and the
final "r_mm_s" entry divides by that zero burn time: the call raises
ZeroDivisionError (modelled as `none`) instead of returning a structured
error result. -/
theorem grain_geometry_infeasible_crash :
    calculate_grain_geometry 40 25 0.4 0.0001 3.05 1845000 1700 910 0.9 0.1007 0.319
      = none := by
  simp only [calculate_grain_geometry]
  have hinv := sizingLoop_degenerate (40 / 1000 - 2 * (25 / 1000)) 0.4 0.0001 3.05 1700 910
    0.9 (0.1007 / 1000) 0.319 (by norm_num) (by norm_num) 20
    { min_core := 0.005, max_core := 40 / 1000 - 2 * (25 / 1000) - 0.005, best_core := 0,
      best_L := 0, sim_tb := 0, sim_imp := 0, sim_P := 0, done := false, count := 0 }
    ⟨rfl, by norm_num, by norm_num, rfl, rfl⟩
  rw [if_pos hinv.2.2.2.1]

end Rocket
